import Mathlib

/-!
Verification of the Polimetrix repository core against its specification.

The TypeScript source is shallowly embedded: JavaScript numbers are modelled
as exact rationals (`ℚ`), `Number.prototype.toFixed(k)` followed by
`parseFloat` as decimal rounding (round half toward positive infinity, the
tie rule of the ECMA-262 `toFixed` definition), absent/`undefined` values as
`Option`, thrown-and-caught exceptions as sum/option results, and host
primitives (`Date` parsing, `Math.sqrt`, `JSON.parse`) as explicit data or
function parameters.  Mutable module state (the provider cache, the database
singleton, the scheduler) is modelled by explicit state passing.
-/

namespace Polimetrix

/-! ## Shared JavaScript-semantics helpers -/

/-- Decimal rounding used to model `parseFloat(x.toFixed(2))`. -/
def round2 (x : ℚ) : ℚ := ((⌊x * 100 + 1/2⌋ : ℤ) : ℚ) / 100

/-- Decimal rounding used to model `parseFloat(x.toFixed(1))`. -/
def round1 (x : ℚ) : ℚ := ((⌊x * 10 + 1/2⌋ : ℤ) : ℚ) / 10

/-- Decimal rounding used to model `parseFloat(x.toFixed(3))`. -/
def round3 (x : ℚ) : ℚ := ((⌊x * 1000 + 1/2⌋ : ℤ) : ℚ) / 1000

/-- Model of `a || d` for an optional string `a` (empty string is falsy). -/
def jsOrStr (a : Option String) (d : String) : String :=
  match a with
  | some s => if s = "" then d else s
  | none => d

/-- Model of `a || d` for an optional number `a` (zero is falsy). -/
def jsOrQ (a : Option ℚ) (d : ℚ) : ℚ :=
  match a with
  | some x => if x = 0 then d else x
  | none => d

/-- Model of `a || undefined` for an optional string (empty string collapses
to `undefined`). -/
def jsOrUndef (a : Option String) : Option String :=
  match a with
  | some s => if s = "" then none else some s
  | none => none

/-- Model of `String.prototype.startsWith`. -/
def jsStartsWith (s pat : String) : Bool := pat.data.isPrefixOf s.data

/-- Helper for `jsIncludes` working on character lists. -/
def listContainsPat (pat : List Char) : List Char → Bool
  | [] => pat.isEmpty
  | c :: cs => pat.isPrefixOf (c :: cs) || listContainsPat pat cs

/-- Model of `String.prototype.includes`. -/
def jsIncludes (s pat : String) : Bool := listContainsPat pat.data s.data

/-- Model of `Array.prototype.slice(-n)`: the last `n` elements. -/
def sliceLast (n : Nat) (xs : List α) : List α := xs.drop (xs.length - n)

/-- Stable insertion into a sorted list, used to model `Array.prototype.sort`
with a numeric comparator. -/
def insertSorted (le : α → α → Bool) (a : α) : List α → List α
  | [] => [a]
  | b :: bs => if le a b then a :: b :: bs else b :: insertSorted le a bs

/-- Sorting by a boolean comparison, used to model `Array.prototype.sort`. -/
def sortByLe (le : α → α → Bool) : List α → List α
  | [] => []
  | a :: as => insertSorted le a (sortByLe le as)

/-- In-place update of the first element satisfying `p`, used to model the
`find`-then-mutate pattern of the database methods. -/
def updateFirst (p : α → Bool) (f : α → α) : List α → List α
  | [] => []
  | x :: xs => if p x then f x :: xs else x :: updateFirst p f xs

/-! ## Data model (src/types.ts) -/

/-- `SentimentType` of `src/types.ts`. -/
inductive Sentiment where
  | positive
  | negative
  | neutral
deriving DecidableEq, Repr

/-- `HistoryItem` of `src/types.ts`. -/
structure HistoryItem where
  time : String
  score : ℚ
  reason : Option String := none
  sourceUrl : Option String := none
  sentiment : Option Sentiment := none
deriving DecidableEq, Repr

/-- `Politician` of `src/types.ts` (fields the verified core reads). -/
structure Politician where
  id : String
  name : String
  role : String
  party : String
  score : ℚ
  trend : ℚ
  color : String
  image : String
  history : List HistoryItem
deriving DecidableEq, Repr

/-- `NewsEvent` of `src/types.ts`. -/
structure NewsEvent where
  id : Nat
  politicianId : String
  sourceId : String
  sourceName : String
  headline : String
  sentiment : Sentiment
  impact : ℚ
  timestamp : String
  url : Option String := none
deriving DecidableEq, Repr

/-- Source type enumeration of `src/types.ts`. -/
inductive SourceType where
  | news
  | social
  | blog
  | tv
deriving DecidableEq, Repr

/-- `Source` of `src/types.ts`. -/
structure Source where
  id : String
  name : String
  type : SourceType
  weight : ℚ
  active : Bool
deriving DecidableEq, Repr

/-- `DiscoveredSource` of `src/types.ts`. -/
structure DiscoveredSource where
  domain : String
  name : String
  type : SourceType
  weight : ℚ
  firstSeen : String
  lastSeen : String
  seenCount : Nat
  accepted : Bool
  rejected : Bool
deriving DecidableEq, Repr

/-- `ProviderType` of `src/types.ts`. -/
inductive ProviderType where
  | gemini
  | ollama
  | huggingface
  | openrouter
deriving DecidableEq, Repr

/-- `AIProviderConfig` of `src/types.ts`. -/
structure AIProviderConfig where
  provider : ProviderType
  ollamaUrl : String
  ollamaModel : String
  huggingfaceApiKey : String
  openrouterApiKey : String
  geminiApiKey : String
deriving DecidableEq, Repr

/-- `CandidateContext` of `src/types.ts`. -/
structure CandidateContext where
  politicianId : String
  narrative : String
  summary : String
  keyEvents : List String
  strengths : List String
  weaknesses : List String
  controversies : List String
  allies : List String
  rivals : List String
  lastGenerated : String
deriving DecidableEq, Repr

/-- `SimulationConfig` of `src/types.ts`. -/
structure SimulationConfig where
  scanInterval : Nat
  isPaused : Bool
  useAI : Bool
  autoRefreshCandidates : Bool
  historyWindowDays : Nat
  aiProviderConfig : AIProviderConfig
deriving DecidableEq, Repr

/-- Status enumeration of `AspirantDiscovery` (database module). -/
inductive AspirantStatus where
  | announcement
  | rumor
  | confirmed
  | withdrawn
  | steppedDown
deriving DecidableEq, Repr

/-- `AspirantDiscovery` of the database module. -/
structure AspirantDiscovery where
  name : String
  party : String
  role : String
  status : AspirantStatus
  firstSeen : String
  lastSeen : String
  sourceUrl : Option String := none
  sourceName : Option String := none
deriving DecidableEq, Repr

/-- `FetchSchedule` of the database module. -/
structure FetchSchedule where
  lastFetchTime : String
  nextFetchTime : String
  fetchCount : Nat
  hourlyFetchEnabled : Bool
  fetchIntervalMinutes : ℚ
deriving DecidableEq, Repr

/-! ## Provider factory configuration (aiProvider module) -/

/-- String form of the `provider` field as it appears in the template string
of `configHash`. -/
def ProviderType.asString : ProviderType → String
  | .gemini => "gemini"
  | .ollama => "ollama"
  | .huggingface => "huggingface"
  | .openrouter => "openrouter"

/-- `getDefaultAIProviderConfig` of the aiProvider module; the Gemini key
read from `process.env.API_KEY` is passed in as `envKey`. -/
def getDefaultAIProviderConfig (envKey : String) : AIProviderConfig :=
  { provider := .gemini
    ollamaUrl := "http://localhost:11434"
    ollamaModel := "llama3"
    huggingfaceApiKey := ""
    openrouterApiKey := ""
    geminiApiKey := envKey }

/-! ## Database schema and defaults (database module) -/

/-- `DatabaseSchema` of the database module: the in-memory mirror. -/
structure DatabaseSchema where
  politicians : List Politician
  sources : List Source
  feed : List NewsEvent
  config : SimulationConfig
  potentialSources : List Source
  lastSync : String
  aspirantDiscovery : List AspirantDiscovery
  fetchSchedule : FetchSchedule
  aiProviderConfig : AIProviderConfig
  candidateContexts : List CandidateContext
  discoveredSources : List DiscoveredSource
deriving DecidableEq, Repr

/-- `DEFAULT_FETCH_SCHEDULE` of the database module. -/
def defaultFetchSchedule : FetchSchedule :=
  { lastFetchTime := ""
    nextFetchTime := ""
    fetchCount := 0
    hourlyFetchEnabled := true
    fetchIntervalMinutes := 60 }

/-- `DEFAULT_CONFIG` of the database module (`envKey` models
`process.env.API_KEY`). -/
def defaultConfig (envKey : String) : SimulationConfig :=
  { scanInterval := 15000
    isPaused := false
    useAI := true
    autoRefreshCandidates := true
    historyWindowDays := 60
    aiProviderConfig := getDefaultAIProviderConfig envKey }

/-- `getDefaultDB` of the database module (`now` models
`new Date().toISOString()`). -/
def getDefaultDB (now envKey : String) : DatabaseSchema :=
  { politicians := []
    sources := []
    feed := []
    config := defaultConfig envKey
    potentialSources := []
    lastSync := now
    aspirantDiscovery := []
    fetchSchedule := defaultFetchSchedule
    aiProviderConfig := getDefaultAIProviderConfig envKey
    candidateContexts := []
    discoveredSources := [] }

/-! ## Database operations used by the claims (database module) -/

/-- `Database.addFeedEvent`: prepend the event and keep the first 200. -/
def addFeedEvent (event : NewsEvent) (db : DatabaseSchema) : DatabaseSchema :=
  { db with feed := (event :: db.feed).take 200 }

/-- `Database.updateFetchSchedule` as invoked by the scheduler (the scheduler
always passes a complete record, so the spread amounts to replacement). -/
def updateFetchSchedule (schedule : FetchSchedule) (db : DatabaseSchema) :
    DatabaseSchema :=
  { db with fetchSchedule := schedule }

/-- `Database.addDiscoveredSource`: bump `lastSeen`/`seenCount` of an
existing record with the same domain, otherwise push the new record. -/
def addDiscoveredSource (source : DiscoveredSource) (db : DatabaseSchema) :
    DatabaseSchema :=
  let bump : DiscoveredSource → DiscoveredSource := fun e =>
    { e with lastSeen := source.lastSeen, seenCount := e.seenCount + 1 }
  match db.discoveredSources.find? (fun s => s.domain == source.domain) with
  | some _ =>
      let upd := updateFirst (fun s => s.domain == source.domain) bump
        db.discoveredSources
      { db with discoveredSources := upd }
  | none =>
      { db with discoveredSources := db.discoveredSources ++ [source] }

/-- `Database.markDiscoveredSourceAccepted`. -/
def markDiscoveredSourceAccepted (domain : String) (db : DatabaseSchema) :
    DatabaseSchema :=
  let upd := updateFirst (fun s => s.domain == domain)
    (fun s => { s with accepted := true }) db.discoveredSources
  { db with discoveredSources := upd }

/-- `Database.markDiscoveredSourceRejected`. -/
def markDiscoveredSourceRejected (domain : String) (db : DatabaseSchema) :
    DatabaseSchema :=
  let upd := updateFirst (fun s => s.domain == domain)
    (fun s => { s with rejected := true }) db.discoveredSources
  { db with discoveredSources := upd }

/-- One candidate-processing step of the discovery scan in
`candidateProfileUpdater` (the per-domain body of the loop over discovered
candidates).  `classifyNews` models the heuristic
`sample.title.toLowerCase().includes('news')`; in JavaScript the found entry
is mutated in place before `addDiscoveredSource` runs, which the
`updateFirst` write models. -/
def surfaceCandidate (domain today : String) (classifyNews : Bool)
    (db : DatabaseSchema) : DatabaseSchema :=
  match db.discoveredSources.find? (fun s => s.domain == domain) with
  | some entry =>
      if entry.rejected || entry.accepted then db
      else
        let entry2 :=
          { entry with lastSeen := today, seenCount := entry.seenCount + 1 }
        let upd := updateFirst (fun s => s.domain == domain) (fun _ => entry2)
          db.discoveredSources
        addDiscoveredSource entry2 { db with discoveredSources := upd }
  | none =>
      let fresh : DiscoveredSource :=
        { domain := domain
          name := domain
          type := if classifyNews then .news else .blog
          weight := 1
          firstSeen := today
          lastSeen := today
          seenCount := 1
          accepted := false
          rejected := false }
      addDiscoveredSource fresh db

/-! ## Retry wrapper (aiProvider module) -/

/-- A JavaScript value as it appears on a thrown error object. -/
inductive JsVal where
  | num (n : Int)
  | str (s : String)
  | undef
deriving DecidableEq, Repr

/-- JavaScript truthiness for `JsVal`. -/
def JsVal.truthy : JsVal → Bool
  | .num n => n != 0
  | .str s => s != ""
  | .undef => false

/-- The fields of a thrown error object that `withRetry` inspects. -/
structure JsError where
  status : JsVal := .undef
  code : JsVal := .undef
  message : JsVal := .undef
deriving DecidableEq, Repr

/-- `error?.status || error?.code`. -/
def errStatus (e : JsError) : JsVal :=
  if e.status.truthy then e.status else e.code

/-- `error?.message || ''` (non-string messages never match the substring
tests, so they are read as the empty string). -/
def errMsg (e : JsError) : String :=
  match e.message with
  | .str s => s
  | _ => ""

/-- The rate-limit classification of `withRetry`. -/
def isRateLimit (e : JsError) : Bool :=
  errStatus e == .num 429 ||
  errStatus e == .str "RESOURCE_EXHAUSTED" ||
  jsIncludes (errMsg e) "429" ||
  jsIncludes (errMsg e) "quota" ||
  jsIncludes (errMsg e) "exhausted"

/-- The server-overload classification of `withRetry`. -/
def isServerOverload (e : JsError) : Bool :=
  errStatus e == .num 503

/-- Outcome of one invocation of the wrapped async operation: it either
resolves with a value or rejects with an error object. -/
inductive FetchOutcome (α : Type) where
  | ok (v : α)
  | err (e : JsError)
deriving DecidableEq, Repr

/-- Bool test for a retryable outcome (a rejection classified as rate limit
or server overload). -/
def retryableB : FetchOutcome α → Bool
  | .ok _ => false
  | .err e => isRateLimit e || isServerOverload e

/-- `withRetry` of the aiProvider module.  `op i` is the outcome of the
i-th invocation of the operation; `attempt` is the index of the next
invocation.  Returns the final result (`null` modelled as `none`), the
number of invocations performed, and the list of back-off delays awaited.
The source guards the recursive call with
`(isRateLimit || isServerOverload) && retries > 0`; the match on `retries`
below expresses the same condition (with `retries = 0`, both a retryable
and a non-retryable error yield `null` after this single invocation). -/
def withRetry (op : Nat → FetchOutcome α) (retries baseDelay attempt : Nat) :
    Option α × Nat × List Nat :=
  match retries, op attempt with
  | _, .ok v => (some v, 1, [])
  | 0, .err _ => (none, 1, [])
  | r + 1, .err e =>
    if isRateLimit e || isServerOverload e then
      let rest := withRetry op r (baseDelay * 2) (attempt + 1)
      (rest.1, rest.2.1 + 1, baseDelay :: rest.2.2)
    else (none, 1, [])


/-! ## Provider factory (aiProvider module) -/

/-- The constructor call performed by the `getProvider` switch for each
branch of `config.provider`. -/
inductive ProviderImpl where
  | geminiP (apiKey : String)
  | ollamaP (baseUrl model : String)
  | freeApiP (backend apiKey : String)
deriving DecidableEq, Repr

/-- A constructed provider object; `id` models JavaScript reference
identity (each `new` yields a fresh id). -/
structure ProviderInstance where
  id : Nat
  impl : ProviderImpl
deriving DecidableEq, Repr

/-- The module-level mutable factory state (`cachedProvider`,
`cachedConfigHash`) together with the allocation counter that models
reference freshness. -/
structure FactoryState where
  cachedProvider : Option ProviderInstance
  cachedConfigHash : String
  nextId : Nat
deriving DecidableEq, Repr

/-- The initial factory state (`cachedProvider = null`,
`cachedConfigHash = ''`). -/
def initialFactoryState : FactoryState :=
  { cachedProvider := none, cachedConfigHash := "", nextId := 0 }

/-- `configHash` of the aiProvider module. -/
def configHash (c : AIProviderConfig) : String :=
  c.provider.asString ++ "|" ++ c.ollamaUrl ++ "|" ++ c.ollamaModel ++ "|" ++
    c.huggingfaceApiKey ++ "|" ++ c.openrouterApiKey ++ "|" ++ c.geminiApiKey

/-- The `switch (config.provider)` body of `getProvider` (the `default`
branch coincides with the `gemini` branch). -/
def buildProvider (c : AIProviderConfig) : ProviderImpl :=
  match c.provider with
  | .gemini => .geminiP c.geminiApiKey
  | .ollama => .ollamaP c.ollamaUrl c.ollamaModel
  | .huggingface => .freeApiP "huggingface" c.huggingfaceApiKey
  | .openrouter => .freeApiP "openrouter" c.openrouterApiKey

/-- `getProvider` of the aiProvider module, with the cache state passed
explicitly. -/
def getProvider (c : AIProviderConfig) (s : FactoryState) :
    ProviderInstance × FactoryState :=
  let h := configHash c
  match s.cachedProvider with
  | some p =>
      if s.cachedConfigHash = h then (p, s)
      else
        let p2 : ProviderInstance := ⟨s.nextId, buildProvider c⟩
        (p2, ⟨some p2, h, s.nextId + 1⟩)
  | none =>
      let p2 : ProviderInstance := ⟨s.nextId, buildProvider c⟩
      (p2, ⟨some p2, h, s.nextId + 1⟩)

/-- Cache well-formedness: any cached instance was allocated before
`nextId`.  Holds for `initialFactoryState` and is preserved by
`getProvider`. -/
def FactoryWF (s : FactoryState) : Prop :=
  ∀ p, s.cachedProvider = some p → p.id < s.nextId

/-- Exactly one field of the configuration differs. -/
def singleFieldChange (c c' : AIProviderConfig) : Prop :=
  (c.provider ≠ c'.provider ∧ c.ollamaUrl = c'.ollamaUrl ∧
    c.ollamaModel = c'.ollamaModel ∧ c.huggingfaceApiKey = c'.huggingfaceApiKey ∧
    c.openrouterApiKey = c'.openrouterApiKey ∧ c.geminiApiKey = c'.geminiApiKey) ∨
  (c.provider = c'.provider ∧ c.ollamaUrl ≠ c'.ollamaUrl ∧
    c.ollamaModel = c'.ollamaModel ∧ c.huggingfaceApiKey = c'.huggingfaceApiKey ∧
    c.openrouterApiKey = c'.openrouterApiKey ∧ c.geminiApiKey = c'.geminiApiKey) ∨
  (c.provider = c'.provider ∧ c.ollamaUrl = c'.ollamaUrl ∧
    c.ollamaModel ≠ c'.ollamaModel ∧ c.huggingfaceApiKey = c'.huggingfaceApiKey ∧
    c.openrouterApiKey = c'.openrouterApiKey ∧ c.geminiApiKey = c'.geminiApiKey) ∨
  (c.provider = c'.provider ∧ c.ollamaUrl = c'.ollamaUrl ∧
    c.ollamaModel = c'.ollamaModel ∧ c.huggingfaceApiKey ≠ c'.huggingfaceApiKey ∧
    c.openrouterApiKey = c'.openrouterApiKey ∧ c.geminiApiKey = c'.geminiApiKey) ∨
  (c.provider = c'.provider ∧ c.ollamaUrl = c'.ollamaUrl ∧
    c.ollamaModel = c'.ollamaModel ∧ c.huggingfaceApiKey = c'.huggingfaceApiKey ∧
    c.openrouterApiKey ≠ c'.openrouterApiKey ∧ c.geminiApiKey = c'.geminiApiKey) ∨
  (c.provider = c'.provider ∧ c.ollamaUrl = c'.ollamaUrl ∧
    c.ollamaModel = c'.ollamaModel ∧ c.huggingfaceApiKey = c'.huggingfaceApiKey ∧
    c.openrouterApiKey = c'.openrouterApiKey ∧ c.geminiApiKey ≠ c'.geminiApiKey)

/-! ## fetchEvent response mapping (provider modules) -/

/-- The parsed JSON object a backend returns for a single-event request
(all fields may be absent). -/
structure RawEventData where
  headline : Option String := none
  sourceName : Option String := none
  sentiment : Option Sentiment := none
  impact : Option ℚ := none
  publishedDate : Option String := none
  sourceUrl : Option String := none
deriving DecidableEq, Repr

/-- The `Partial<NewsEvent>` object a provider's `fetchEvent` resolves
with. -/
structure FetchedEvent where
  headline : Option String := none
  sourceName : Option String := none
  sentiment : Option Sentiment := none
  impact : Option ℚ := none
  timestamp : Option String := none
  url : Option String := none
deriving DecidableEq, Repr

/-- The response mapping of `FreeApiProvider.fetchEvent` (after JSON
parsing succeeded); `name` is `this.name`, `nowLocale` is
`new Date().toLocaleString()`. -/
def freeApiEventOf (name nowLocale : String) (data : RawEventData) :
    FetchedEvent :=
  { headline := data.headline
    sourceName := some (jsOrStr data.sourceName name)
    sentiment := some ((data.sentiment).getD .neutral)
    impact := some (min 3 (max (1/10) (jsOrQ data.impact (1/2))))
    timestamp := some (jsOrStr data.publishedDate nowLocale)
    url := jsOrUndef data.sourceUrl }

/-- The response mapping of `OllamaProvider.fetchEvent` (after JSON parsing
succeeded). -/
def ollamaEventOf (nowLocale : String) (data : RawEventData) : FetchedEvent :=
  { headline := data.headline
    sourceName := some (jsOrStr data.sourceName "Ollama Analysis")
    sentiment := some ((data.sentiment).getD .neutral)
    impact := some (jsOrQ data.impact (1/2))
    timestamp := some (jsOrStr data.publishedDate nowLocale)
    url := jsOrUndef data.sourceUrl }

/-- The response mapping of `GeminiProvider.fetchEvent` (after JSON parsing
succeeded); `grounding` is the URL of the first grounding chunk with a web
URI, if any. -/
def geminiEventOf (grounding : Option String) (nowLocale : String)
    (data : RawEventData) : Option FetchedEvent :=
  let finalUrl :=
    match jsOrUndef data.sourceUrl with
    | some u => some u
    | none => grounding
  match finalUrl with
  | none => none
  | some u =>
    if u.length < 5 then none
    else
      some { headline := data.headline
             sourceName := some (jsOrStr data.sourceName "Web Search")
             sentiment := data.sentiment
             impact := data.impact
             timestamp := some (jsOrStr data.publishedDate nowLocale)
             url := some u }

/-! ## fetchHistory response mapping (provider modules) -/

/-- One entry of the `history` array in a backend's historical response.
`dateVal` is the result of `new Date(e.date).getTime()` on `dateStr`
(`none` models `NaN`, i.e. an unparseable date). -/
structure RawHistEvent where
  dateStr : String
  dateVal : Option Int := none
  headline : String := ""
  sentiment : Option Sentiment := none
  impact : ℚ := 0
  sourceUrl : Option String := none
deriving DecidableEq, Repr

/-- The sort key used by the providers' comparator
`new Date(a.date).getTime() - new Date(b.date).getTime()` (all sorted
events have a parsed date, so the default is never observed). -/
def histDateKey (e : RawHistEvent) : Int := (e.dateVal).getD 0

/-- Sorting of surviving events ascending by date. -/
def sortByDate (evs : List RawHistEvent) : List RawHistEvent :=
  sortByLe (fun a b => histDateKey a ≤ histDateKey b) evs

/-- The window filter shared by all providers: the date parses and is not
before the cutoff (`!isNaN(eventDate.getTime()) && eventDate >= cutoffDate`). -/
def histDateValid (cutoff : Int) (e : RawHistEvent) : Bool :=
  match e.dateVal with
  | some t => cutoff ≤ t
  | none => false

/-- The event filter of `GeminiProvider.fetchHistory`: window check plus
`e.sourceUrl && e.sourceUrl.startsWith('http')`. -/
def geminiHistValid (cutoff : Int) (e : RawHistEvent) : Bool :=
  histDateValid cutoff e &&
    (match e.sourceUrl with
     | some u => jsStartsWith u "http"
     | none => false)

/-- The fold loop shared by the providers' `fetchHistory`: accumulate each
impact into the running score and emit one `HistoryItem` per event with the
rounded cumulative score.  `sentOf` is the per-provider sentiment mapping
(`Gemini` passes the raw value through, Ollama and the free-API provider
default it to `neutral`). -/
def foldHistory (sentOf : Option Sentiment → Option Sentiment) :
    ℚ → List RawHistEvent → List HistoryItem
  | _, [] => []
  | score, e :: rest =>
    let s := score + e.impact
    { time := e.dateStr
      score := round2 s
      reason := some e.headline
      sourceUrl := e.sourceUrl
      sentiment := sentOf e.sentiment } :: foldHistory sentOf s rest

/-- The history reconstruction of `GeminiProvider.fetchHistory` (after JSON
parsing succeeded): filter by window and provenance URL, sort ascending by
date, fold from the baseline score 100. -/
def geminiFetchHistoryCore (cutoff : Int) (events : List RawHistEvent) :
    List HistoryItem :=
  foldHistory id 100 (sortByDate (events.filter (geminiHistValid cutoff)))

/-- The history reconstruction of `OllamaProvider.fetchHistory` (after JSON
parsing succeeded): filter by window only, sort ascending by date, fold
from the baseline score 100 (`FreeApiProvider.fetchHistory` performs the
same steps). -/
def ollamaFetchHistoryCore (cutoff : Int) (events : List RawHistEvent) :
    List HistoryItem :=
  foldHistory (fun s => some (s.getD .neutral)) 100
    (sortByDate (events.filter (histDateValid cutoff)))

/-- Modelled from the spec: the running cumulative scores of a fold from a
baseline (one score per event, each the baseline plus the sum of all
impacts so far).  Used to compare the providers' fold output against the
specified cumulative-sum series. -/
def cumScoresSpec (base : ℚ) : List ℚ → List ℚ
  | [] => []
  | i :: rest => (base + i) :: cumScoresSpec (base + i) rest

/-! ## Export/import (database module and analyticsService) -/

/-- The result of `JSON.parse` on an import blob for `Database.importData`:
any subset of the top-level collections may be present (spread semantics
`{ ...getDefaultDB(), ...data }` keeps present keys and defaults the
rest). -/
structure ImportDump where
  politicians : Option (List Politician) := none
  sources : Option (List Source) := none
  feed : Option (List NewsEvent) := none
  config : Option SimulationConfig := none
  potentialSources : Option (List Source) := none
  lastSync : Option String := none
  aspirantDiscovery : Option (List AspirantDiscovery) := none
  fetchSchedule : Option FetchSchedule := none
  aiProviderConfig : Option AIProviderConfig := none
  candidateContexts : Option (List CandidateContext) := none
  discoveredSources : Option (List DiscoveredSource) := none
deriving DecidableEq, Repr

/-- The spread `{ ...getDefaultDB(), ...data }` of `Database.importData`. -/
def mergeImportDump (now envKey : String) (d : ImportDump) : DatabaseSchema :=
  let defaults := getDefaultDB now envKey
  { politicians := (d.politicians).getD defaults.politicians
    sources := (d.sources).getD defaults.sources
    feed := (d.feed).getD defaults.feed
    config := (d.config).getD defaults.config
    potentialSources := (d.potentialSources).getD defaults.potentialSources
    lastSync := (d.lastSync).getD defaults.lastSync
    aspirantDiscovery := (d.aspirantDiscovery).getD defaults.aspirantDiscovery
    fetchSchedule := (d.fetchSchedule).getD defaults.fetchSchedule
    aiProviderConfig := (d.aiProviderConfig).getD defaults.aiProviderConfig
    candidateContexts := (d.candidateContexts).getD defaults.candidateContexts
    discoveredSources := (d.discoveredSources).getD defaults.discoveredSources }

/-- `Database.importData`: `parsed` is the outcome of `JSON.parse` on the
input string (`none` models a parse exception, which the `catch` turns
into `false`); returns the boolean result and the resulting in-memory
state. -/
def dbImportData (parsed : Option ImportDump) (now envKey : String)
    (db : DatabaseSchema) : Bool × DatabaseSchema :=
  match parsed with
  | none => (false, db)
  | some d => (true, mergeImportDump now envKey d)

/-- The result of `JSON.parse` on an import blob for the analyticsService
`importData`. -/
structure AnalyticsDump where
  politicians : Option (List Politician) := none
  feed : Option (List NewsEvent) := none
  sources : Option (List Source) := none
deriving DecidableEq, Repr

/-- `importData` of the analyticsService: rejects (returns `null`) on a
parse failure and on any missing top-level collection
(`!data.politicians || !data.feed || !data.sources`; a present array is
always truthy in JavaScript). -/
def analyticsImportData (parsed : Option AnalyticsDump) :
    Option (List Politician × List NewsEvent × List Source) :=
  match parsed with
  | none => none
  | some d =>
    match d.politicians, d.feed, d.sources with
    | some ps, some fs, some ss => some (ps, fs, ss)
    | _, _, _ => none

/-! ## Scheduler (hourlyFetchScheduler module) -/

/-- The per-tick result record `FetchResult`. -/
structure FetchResult where
  success : Bool
  event : Option NewsEvent := none
  error : Option String := none
  timestamp : String
deriving DecidableEq, Repr

/-- The scheduler's own mutable counters (`fetchCount`, `lastFetchTime`,
`fetchIntervalMs`, `isRunning`). -/
structure SchedulerState where
  fetchCount : Nat
  lastFetchTime : String
  fetchIntervalMs : Nat
  isRunning : Bool
deriving DecidableEq, Repr

/-- The `event && event.headline` guard of the tick loop. -/
def fetchedEventOk (e : FetchedEvent) : Bool :=
  match e.headline with
  | some h => h != ""
  | none => false

/-- The `NewsEvent` record built by the tick loop for an accepted fetched
event (`idNow` models `Date.now()`, `nowLocale` models
`now.toLocaleString()`). -/
def scheduledNewsEvent (idNow : Nat) (nowLocale : String) (pol : Politician)
    (e : FetchedEvent) : NewsEvent :=
  { id := idNow
    politicianId := pol.id
    sourceId := "hourly-schedule"
    sourceName := jsOrStr e.sourceName "Scheduled Fetch"
    headline := (e.headline).getD ""
    sentiment := (e.sentiment).getD .neutral
    impact := jsOrQ e.impact (1/2)
    timestamp := jsOrStr e.timestamp nowLocale
    url := e.url }

/-- The per-politician loop of `runHourlyFetch`.  `fetch` is the outcome of
`fetchAIEvent` for each politician (`Except.error` models a thrown
exception, which the `catch` converts to a failure result without aborting
the loop). -/
def runFetchLoop (fetch : Politician → Except String (Option FetchedEvent))
    (idNow : Nat) (nowIso nowLocale : String) :
    List Politician → DatabaseSchema → List FetchResult × DatabaseSchema
  | [], db => ([], db)
  | pol :: rest, db =>
    match fetch pol with
    | .error msg =>
      let r := runFetchLoop fetch idNow nowIso nowLocale rest db
      ({ success := false, error := some msg, timestamp := nowIso } :: r.1, r.2)
    | .ok evOpt =>
      match evOpt with
      | some ev =>
        if fetchedEventOk ev then
          let newsEvent := scheduledNewsEvent idNow nowLocale pol ev
          let db2 := addFeedEvent newsEvent db
          let r := runFetchLoop fetch idNow nowIso nowLocale rest db2
          ({ success := true, event := some newsEvent, timestamp := nowIso } :: r.1,
            r.2)
        else
          let r := runFetchLoop fetch idNow nowIso nowLocale rest db
          ({ success := false, error := some "No event found",
             timestamp := nowIso } :: r.1, r.2)
      | none =>
        let r := runFetchLoop fetch idNow nowIso nowLocale rest db
        ({ success := false, error := some "No event found",
           timestamp := nowIso } :: r.1, r.2)

/-- `HourlyFetchScheduler.runHourlyFetch`: run the batch over every tracked
politician, then increment the counter, stamp the run times, persist the
schedule and return the results.  `isoOf` models `Date.toISOString` on
millisecond timestamps, `nowMs` models `now.getTime()`. -/
def runHourlyFetch (fetch : Politician → Except String (Option FetchedEvent))
    (idNow : Nat) (isoOf : Int → String) (nowMs : Int) (nowLocale : String)
    (politicians : List Politician) (st : SchedulerState)
    (db : DatabaseSchema) :
    List FetchResult × SchedulerState × DatabaseSchema :=
  let nowIso := isoOf nowMs
  let loopOut := runFetchLoop fetch idNow nowIso nowLocale politicians db
  let st2 : SchedulerState :=
    { st with fetchCount := st.fetchCount + 1, lastFetchTime := nowIso }
  let schedule : FetchSchedule :=
    { lastFetchTime := nowIso
      nextFetchTime := isoOf (nowMs + st.fetchIntervalMs)
      fetchCount := st2.fetchCount
      hourlyFetchEnabled := true
      fetchIntervalMinutes := (st.fetchIntervalMs : ℚ) / 60000 }
  (loopOut.1, st2, updateFetchSchedule schedule loopOut.2)

/-- `HourlyFetchScheduler.fetchNow`: delegates to `runHourlyFetch` with no
logic of its own. -/
def fetchNow : (Politician → Except String (Option FetchedEvent)) → Nat →
    (Int → String) → Int → String → List Politician → SchedulerState →
    DatabaseSchema → List FetchResult × SchedulerState × DatabaseSchema :=
  runHourlyFetch

/-! ## Live state updaters (src/App.tsx) -/

/-- The default `HistoryItem` used to read `history[history.length - 1]`
(only ever consulted behind a non-emptiness guard). -/
def lastHistoryItem (h : List HistoryItem) : HistoryItem :=
  (h.getLast?).getD { time := "", score := 0 }

/-- The `setPoliticians` updater of `loadHistoricalContext` in `App.tsx`
(history bootstrap): for the targeted politician, install the fetched
history when it is non-empty and set the score to its last point's score;
`image || p.image` keeps the old image when none was fetched. -/
def bootstrapUpdate (polId : String) (fetched : Option (List HistoryItem))
    (image : Option String) (pols : List Politician) : List Politician :=
  pols.map fun p =>
    if p.id = polId then
      { p with
        history :=
          match fetched with
          | some h => if 0 < h.length then h else p.history
          | none => p.history
        score :=
          match fetched with
          | some h => if 0 < h.length then (lastHistoryItem h).score else p.score
          | none => p.score
        image := jsOrStr image p.image }
    else p

/-- The feed part of `processEvent` in `App.tsx`. -/
def processEventFeed (event : NewsEvent) (feed : List NewsEvent) :
    List NewsEvent :=
  (event :: feed).take 50

/-- The `setPoliticians` updater of `processEvent` in `App.tsx`: apply the
signed impact to the matching politician's score, append the live history
point and keep the last 50 points. -/
def processEventPoliticians (event : NewsEvent) (today : String)
    (pols : List Politician) : List Politician :=
  pols.map fun p =>
    if p.id ≠ event.politicianId then p
    else
      let change : ℚ :=
        if event.sentiment = .positive then event.impact
        else if event.sentiment = .negative then -event.impact else 0
      let newScore := round2 (p.score + change)
      let newHistoryItem : HistoryItem :=
        { time := today
          score := newScore
          reason := some ("Live: " ++ event.headline)
          sourceUrl := event.url }
      let newHistory := sliceLast 50 (p.history ++ [newHistoryItem])
      { p with score := newScore, trend := change, history := newHistory }

/-- The score/history coherence invariant of the specification: the score
field equals the score of the last history point whenever the history is
non-empty. -/
def scoreHistoryCoherent (p : Politician) : Prop :=
  ∀ lastItem, p.history.getLast? = some lastItem → p.score = lastItem.score

/-! ## Metrics engine (analyticsService) -/

/-- The filter for valid (dated) history points, `history.filter(h => h.time)`
(an empty time string is falsy). -/
def validHistoryOf (history : List HistoryItem) : List HistoryItem :=
  history.filter fun h => h.time != ""

/-- `calculateVolatility`; `sqrtQ` models `Math.sqrt`. -/
def calculateVolatility (sqrtQ : ℚ → ℚ) (history : List HistoryItem) : ℚ :=
  if history.length < 2 then 0
  else
    let scores := (validHistoryOf history).map (·.score)
    if scores.length < 2 then 0
    else
      let mean := scores.sum / (scores.length : ℚ)
      let variance :=
        (scores.map fun s => (s - mean) ^ 2).sum / (scores.length : ℚ)
      sqrtQ variance

/-- `calculateMomentum`: difference of the means of the most recent 7 and
the preceding 7 valid points, rounded by `toFixed(2)`. -/
def calculateMomentum (history : List HistoryItem) : ℚ :=
  if history.length < 7 then 0
  else
    let validHistory := validHistoryOf history
    if validHistory.length < 14 then 0
    else
      let recent7 := sliceLast 7 validHistory
      let prev7 := (validHistory.drop (validHistory.length - 14)).take 7
      let recentAvg := (recent7.map (·.score)).sum / (recent7.length : ℚ)
      let prevAvg := (prev7.map (·.score)).sum / (prev7.length : ℚ)
      round2 (recentAvg - prevAvg)

/-- `calculateSentimentRatio`. -/
def calculateSentimentRatio (history : List HistoryItem) : ℚ :=
  if history.length = 0 then 0
  else
    let positive := (history.filter fun h => h.sentiment == some .positive).length
    let negative := (history.filter fun h => h.sentiment == some .negative).length
    let total := positive + negative
    if total = 0 then 0
    else round3 (((positive : ℚ) - negative) / (total : ℚ))

/-- The regression sums computed by the `for` loops of `calculateTrendStrength`
and `calculatePrediction` over a score list: `(sumX, sumY, sumXY, sumX2)`. -/
def regressionSums (scores : List ℚ) : ℚ × ℚ × ℚ × ℚ :=
  let n := scores.length
  let idx := (List.range n).map fun i => (i : ℚ)
  let sumX := idx.sum
  let sumY := scores.sum
  let sumXY := (scores.zipWith (fun s i => i * s) idx).sum
  let sumX2 := (idx.map fun i => i * i).sum
  (sumX, sumY, sumXY, sumX2)

/-- `calculateTrendStrength`; `sqrtQ` models `Math.sqrt` (the `|| 0` after
`Math.pow` guards a `NaN`, which does not arise over exact rationals). -/
def calculateTrendStrength (sqrtQ : ℚ → ℚ) (history : List HistoryItem) : ℚ :=
  if history.length < 7 then 0
  else
    let scores := (sliceLast 14 history).map (·.score)
    if scores.length < 7 then 0
    else
      let n : ℚ := scores.length
      let sums := regressionSums scores
      let sumX := sums.1
      let sumY := sums.2.1
      let sumXY := sums.2.2.1
      let sumX2 := sums.2.2.2
      let slope := (n * sumXY - sumX * sumY) / (n * sumX2 - sumX * sumX)
      let devSum := (scores.map fun s => (s - sumY / n) ^ 2).sum
      let rSquared :=
        ((n * sumXY - sumX * sumY) /
          sqrtQ ((n * sumX2 - sumX * sumX) * (n * devSum - sumY * sumY))) ^ 2
      round3 |slope * rSquared|

/-- `calculateConsistencyScore`; `sqrtQ` models `Math.sqrt`. -/
def calculateConsistencyScore (sqrtQ : ℚ → ℚ) (history : List HistoryItem) : ℚ :=
  if history.length < 5 then 0
  else
    let scores := history.map (·.score)
    let mean := scores.sum / (scores.length : ℚ)
    let variance :=
      (scores.map fun s => (s - mean) ^ 2).sum / (scores.length : ℚ)
    let stdDev := sqrtQ variance
    let coefficientOfVariation := stdDev / mean
    round2 (max 0 (100 - coefficientOfVariation * 100))

/-- `calculateSMA`. -/
def calculateSMA (history : List HistoryItem) (period : Nat) : ℚ :=
  let scores := sliceLast period (history.map (·.score))
  if scores.length < period then
    if 0 < history.length then (lastHistoryItem history).score else 100
  else round2 (scores.sum / (period : ℚ))

/-- `calculateEMA`. -/
def calculateEMA (history : List HistoryItem) (period : Nat) : ℚ :=
  let scores := history.map (·.score)
  match scores with
  | [] => 100
  | s0 :: rest =>
    let multiplier : ℚ := 2 / (period + 1)
    round2 (rest.foldl (fun ema s => (s - ema) * multiplier + ema) s0)

/-- The prediction record of `calculatePrediction`. -/
structure Prediction where
  nextWeek : ℚ
  confidence : ℚ
  trend : String
deriving DecidableEq, Repr

/-- `calculatePrediction`; `sqrtQ` models `Math.sqrt` (used for the RMSE in
the confidence term). -/
def calculatePrediction (sqrtQ : ℚ → ℚ) (history : List HistoryItem) :
    Prediction :=
  if history.length < 7 then
    { nextWeek := 100, confidence := 0, trend := "stable" }
  else
    let recentScores := (sliceLast 14 history).map (·.score)
    let n : ℚ := recentScores.length
    let sums := regressionSums recentScores
    let sumX := sums.1
    let sumY := sums.2.1
    let sumXY := sums.2.2.1
    let sumX2 := sums.2.2.2
    let slope :=
      if 0 < n then (n * sumXY - sumX * sumY) / (n * sumX2 - sumX * sumX) else 0
    let intercept := (sumY - slope * sumX) / n
    let predicted := intercept + slope * (n + 7)
    let nextWeek := round2 (max 80 (min 120 predicted))
    let residuals := (recentScores.zipWith
      (fun y i => y - (intercept + slope * i))
      ((List.range recentScores.length).map fun i => (i : ℚ)))
    let mse := (residuals.map fun r => r * r).sum / n
    let rmse := sqrtQ mse
    let confidence := round1 (max 0 (min 100 (100 - rmse)))
    let trend :=
      if slope > 1/2 then "rising"
      else if slope < -(1/2) then "falling" else "stable"
    { nextWeek := nextWeek, confidence := confidence, trend := trend }

/-- The percentage record of `calculateSentimentBreakdown`. -/
structure SentimentBreakdown where
  positive : ℚ
  negative : ℚ
  neutral : ℚ
deriving DecidableEq, Repr

/-- `calculateSentimentBreakdown` (points that are neither positive nor
negative count as neutral). -/
def calculateSentimentBreakdown (history : List HistoryItem) :
    SentimentBreakdown :=
  let positive := (history.filter fun h => h.sentiment == some .positive).length
  let negative := (history.filter fun h => h.sentiment == some .negative).length
  let neutral := history.length - positive - negative
  let total := positive + negative + neutral
  if total = 0 then { positive := 0, negative := 0, neutral := 0 }
  else
    { positive := round1 ((positive : ℚ) / (total : ℚ) * 100)
      negative := round1 ((negative : ℚ) / (total : ℚ) * 100)
      neutral := round1 ((neutral : ℚ) / (total : ℚ) * 100) }

/-! ## General lemmas about the helper functions -/

theorem updateFirst_map_of_invariant (g : α → β) (p : α → Bool) (f : α → α)
    (hg : ∀ a, g (f a) = g a) :
    ∀ l : List α, (updateFirst p f l).map g = l.map g := by
  intro l
  induction l with
  | nil => rfl
  | cons x xs ih =>
    by_cases hx : p x
    · simp [updateFirst, hx, hg]
    · simp [updateFirst, hx, ih]

theorem take_cons_200 (a : α) (l : List α) :
    (a :: l).take 200 = a :: l.take 199 := rfl

theorem take_cons_50 (a : α) (l : List α) :
    (a :: l).take 50 = a :: l.take 49 := rfl

/-! ## Claim C10: feed retention cap -/

/-- C10: after every `Database.addFeedEvent`, the feed contains the new
event at index 0, has length at most 200 (exactly
`min (|feed| + 1) 200`), and when the feed already holds 200 events the
oldest retained event (the last element, the feed being newest-first) is
discarded. -/
theorem claim_C10_feed_retention (event : NewsEvent) (db : DatabaseSchema) :
    (addFeedEvent event db).feed.head? = some event ∧
    (addFeedEvent event db).feed.length = min (db.feed.length + 1) 200 ∧
    (db.feed.length = 200 →
      (addFeedEvent event db).feed = event :: db.feed.dropLast) := by
  refine ⟨?_, ?_, ?_⟩
  · simp [addFeedEvent, take_cons_200]
  · simp [addFeedEvent, List.length_take]
    omega
  · intro h
    simp only [addFeedEvent, take_cons_200]
    rw [List.dropLast_eq_take, h]

/-- Witness for C10 at a concrete feed of exactly 200 events. -/
theorem claim_C10_witness :
    (addFeedEvent
        { id := 200, politicianId := "p", sourceId := "s", sourceName := "n",
          headline := "h", sentiment := .neutral, impact := 1, timestamp := "t" }
        { getDefaultDB "t0" "" with
            feed := (List.range 200).map fun i =>
              { id := i, politicianId := "p", sourceId := "s",
                sourceName := "n", headline := "h", sentiment := .neutral,
                impact := 1, timestamp := "t" } }).feed =
      { id := 200, politicianId := "p", sourceId := "s", sourceName := "n",
        headline := "h", sentiment := .neutral, impact := 1,
        timestamp := "t" } ::
        ((List.range 200).map fun i =>
          ({ id := i, politicianId := "p", sourceId := "s", sourceName := "n",
             headline := "h", sentiment := .neutral, impact := 1,
             timestamp := "t" } : NewsEvent)).dropLast := by
  exact (claim_C10_feed_retention _ _).2.2 (by simp)

/-! ## Claim C8: DiscoveredSource flags -/

/-- C8 counterexample: applying `markDiscoveredSourceAccepted` and then
`markDiscoveredSourceRejected` to the same domain leaves a record with BOTH
flags set, so the mutual-exclusion part of the claim is false at this
input. -/
theorem claim_C8_counterexample :
    ((markDiscoveredSourceRejected "d.com"
        (markDiscoveredSourceAccepted "d.com"
          { getDefaultDB "t0" "" with
              discoveredSources :=
                [{ domain := "d.com", name := "d", type := .blog, weight := 1,
                   firstSeen := "t0", lastSeen := "t0", seenCount := 1,
                   accepted := false, rejected := false }] })).discoveredSources.map
      fun s => (s.accepted, s.rejected)) = [(true, true)] := by
  with_unfolding_all decide

/-- C8 amended: the two mark operations each set only their own flag and
never clear or check the other (so both flags can end up true at the
database level); terminality is enforced by the discovery-surfacing step,
which leaves the store unchanged whenever the candidate's record already
has either flag set. -/
theorem claim_C8_flag_behaviour :
    (∀ domain db,
      (markDiscoveredSourceAccepted domain db).discoveredSources.map
          (fun s => s.rejected) =
        db.discoveredSources.map (fun s => s.rejected) ∧
      (markDiscoveredSourceRejected domain db).discoveredSources.map
          (fun s => s.accepted) =
        db.discoveredSources.map (fun s => s.accepted)) ∧
    (∀ domain today classifyNews db entry,
      db.discoveredSources.find? (fun s => s.domain == domain) = some entry →
      (entry.rejected || entry.accepted) = true →
      surfaceCandidate domain today classifyNews db = db) := by
  constructor
  · intro domain db
    constructor
    · exact updateFirst_map_of_invariant (fun s => s.rejected)
        (fun s => s.domain == domain) (fun s => { s with accepted := true })
        (fun a => rfl) db.discoveredSources
    · exact updateFirst_map_of_invariant (fun s => s.accepted)
        (fun s => s.domain == domain) (fun s => { s with rejected := true })
        (fun a => rfl) db.discoveredSources
  · intro domain today classifyNews db entry hfind hflag
    simp [surfaceCandidate, hfind, hflag]

/-- Witness for C8 at a concrete store holding one rejected record. -/
theorem claim_C8_witness :
    surfaceCandidate "d.com" "t1" false
        { getDefaultDB "t0" "" with
            discoveredSources :=
              [{ domain := "d.com", name := "d", type := .blog, weight := 1,
                 firstSeen := "t0", lastSeen := "t0", seenCount := 3,
                 accepted := false, rejected := true }] } =
      { getDefaultDB "t0" "" with
          discoveredSources :=
            [{ domain := "d.com", name := "d", type := .blog, weight := 1,
               firstSeen := "t0", lastSeen := "t0", seenCount := 3,
               accepted := false, rejected := true }] } := by
  exact claim_C8_flag_behaviour.2 "d.com" "t1" false _
    { domain := "d.com", name := "d", type := .blog, weight := 1,
      firstSeen := "t0", lastSeen := "t0", seenCount := 3,
      accepted := false, rejected := true }
    (by with_unfolding_all decide) rfl

/-! ## Claim C5: import rejection and atomicity -/

/-- C5 counterexample: `Database.importData` on a successfully parsed
document missing EVERY required top-level collection returns `true` (not a
failure) and replaces the in-memory state (the pre-existing politician
list is reset to the default), so the claim as stated is false at this
input. -/
theorem claim_C5_counterexample :
    (dbImportData (some {}) "t0" "k"
        { getDefaultDB "t0" "k" with
            politicians :=
              [{ id := "p1", name := "A", role := "r", party := "pa",
                 score := 100, trend := 0, color := "c", image := "img",
                 history := [] }] }).1 = true ∧
    (dbImportData (some {}) "t0" "k"
        { getDefaultDB "t0" "k" with
            politicians :=
              [{ id := "p1", name := "A", role := "r", party := "pa",
                 score := 100, trend := 0, color := "c", image := "img",
                 history := [] }] }).2.politicians = [] := by
  constructor
  · rfl
  · rfl

/-- C5 amended: `Database.importData` returns a failure (`false`) exactly
when JSON parsing fails, and then leaves the in-memory state completely
unchanged; a parsed document is always accepted, with missing top-level
collections filled from defaults (full state replacement).  The
analyticsService `importData` returns a failure (`null`) both on a parse
failure and whenever any of the politicians/feed/sources collections is
missing, and (being pure) mutates no state. -/
theorem claim_C5_import_behaviour :
    (∀ now envKey db, dbImportData none now envKey db = (false, db)) ∧
    analyticsImportData none = none ∧
    (∀ d : AnalyticsDump,
      (d.politicians = none ∨ d.feed = none ∨ d.sources = none) →
      analyticsImportData (some d) = none) ∧
    (∀ d now envKey db,
      dbImportData (some d) now envKey db = (true, mergeImportDump now envKey d)) := by
  refine ⟨fun now envKey db => rfl, rfl, ?_, fun d now envKey db => rfl⟩
  intro d hmiss
  rcases d with ⟨ps, fs, ss⟩
  rcases hmiss with h | h | h <;> simp_all [analyticsImportData]

/-- Witness for C5 at a concrete parsed document missing its politicians
collection. -/
theorem claim_C5_witness :
    analyticsImportData
        (some { politicians := none, feed := some [], sources := some [] }) =
      none := by
  exact claim_C5_import_behaviour.2.2.1
    { politicians := none, feed := some [], sources := some [] } (Or.inl rfl)

/-! ## Claim C6: scheduler tick accounting -/

theorem runFetchLoop_length (fetch : Politician → Except String (Option FetchedEvent))
    (idNow : Nat) (nowIso nowLocale : String) :
    ∀ (pols : List Politician) (db : DatabaseSchema),
      (runFetchLoop fetch idNow nowIso nowLocale pols db).1.length = pols.length := by
  intro pols
  induction pols with
  | nil => intro db; rfl
  | cons pol rest ih =>
    intro db
    cases hf : fetch pol with
    | error msg => simp [runFetchLoop, hf, ih]
    | ok evOpt =>
      cases evOpt with
      | none => simp [runFetchLoop, hf, ih]
      | some ev =>
        by_cases hok : fetchedEventOk ev <;> simp [runFetchLoop, hf, hok, ih]

/-- C6: every executed tick increments the scheduler's fetch counter by
exactly 1 and persists a schedule whose counter is the incremented value
and whose last/next run times are stamped from the tick's start time; the
result list always has one entry per tracked entity (a single entity's
failure never aborts the batch); and `fetchNow` IS `runHourlyFetch`, so a
manual trigger shares the identical code path and cannot double-increment. -/
theorem claim_C6_tick_accounting :
    (∀ fetch idNow isoOf nowMs nowLocale pols st db,
      (runHourlyFetch fetch idNow isoOf nowMs nowLocale pols st db).2.1.fetchCount =
          st.fetchCount + 1 ∧
      (runHourlyFetch fetch idNow isoOf nowMs nowLocale pols st
            db).2.2.fetchSchedule.fetchCount = st.fetchCount + 1 ∧
      (runHourlyFetch fetch idNow isoOf nowMs nowLocale pols st
            db).2.2.fetchSchedule.lastFetchTime = isoOf nowMs ∧
      (runHourlyFetch fetch idNow isoOf nowMs nowLocale pols st
            db).2.2.fetchSchedule.nextFetchTime =
          isoOf (nowMs + st.fetchIntervalMs) ∧
      (runHourlyFetch fetch idNow isoOf nowMs nowLocale pols st db).1.length =
          pols.length) ∧
    fetchNow = runHourlyFetch := by
  refine ⟨?_, rfl⟩
  intro fetch idNow isoOf nowMs nowLocale pols st db
  refine ⟨rfl, rfl, rfl, rfl, ?_⟩
  exact runFetchLoop_length fetch idNow (isoOf nowMs) nowLocale pols db

/-! ## Claim C1: score/history coherence -/

theorem getLast?_sliceLast_concat (n : Nat) (hn : 0 < n) (xs : List α) (a : α) :
    (sliceLast n (xs ++ [a])).getLast? = some a := by
  unfold sliceLast
  have hle : xs.length + 1 - n ≤ xs.length := by omega
  rw [List.length_append, List.length_singleton,
    List.drop_append_of_le_length hle, List.getLast?_concat]

/-- C1: score/history coherence.  After a successful history bootstrap
(non-empty fetched history) and after every accepted live event, the
targeted politician's score equals the score of the last element of its
history; both updaters also preserve coherence of every other politician. -/
theorem claim_C1_score_history_coherence :
    (∀ polId h image pols p, h ≠ [] →
      p ∈ bootstrapUpdate polId (some h) image pols → p.id = polId →
      scoreHistoryCoherent p) ∧
    (∀ event today pols p, p ∈ processEventPoliticians event today pols →
      p.id = event.politicianId → scoreHistoryCoherent p) ∧
    (∀ polId fetched image pols, (∀ q ∈ pols, scoreHistoryCoherent q) →
      ∀ p ∈ bootstrapUpdate polId fetched image pols, scoreHistoryCoherent p) ∧
    (∀ event today pols, (∀ q ∈ pols, scoreHistoryCoherent q) →
      ∀ p ∈ processEventPoliticians event today pols, scoreHistoryCoherent p) := by
  refine ⟨?_, ?_, ?_, ?_⟩
  · intro polId h image pols p hne hp hid
    rcases List.mem_map.mp hp with ⟨q, hq, hpq⟩
    have hlen : 0 < h.length := List.length_pos.mpr hne
    by_cases hqid : q.id = polId
    · intro lastItem hlast
      subst hpq
      simp only [bootstrapUpdate, hqid, hlen, eq_self_iff_true,
        if_true] at hlast ⊢
      simp [lastHistoryItem, hlast]
    · subst hpq
      simp [bootstrapUpdate, hqid] at hid
  · intro event today pols p hp hid
    rcases List.mem_map.mp hp with ⟨q, hq, hpq⟩
    by_cases hqid : q.id = event.politicianId
    · intro lastItem hlast
      subst hpq
      simp only [processEventPoliticians, ne_eq, hqid, not_true_eq_false,
        if_false] at hlast ⊢
      rw [getLast?_sliceLast_concat 50 (by omega)] at hlast
      simp only [Option.some_inj] at hlast
      rw [← hlast]
    · subst hpq
      simp [processEventPoliticians, hqid] at hid
  · intro polId fetched image pols hall p hp
    rcases List.mem_map.mp hp with ⟨q, hq, hpq⟩
    by_cases hqid : q.id = polId
    · cases fetched with
      | none =>
        intro lastItem hlast
        subst hpq
        simp only [bootstrapUpdate, hqid, if_true, eq_self_iff_true] at hlast ⊢
        exact hall q hq lastItem hlast
      | some h =>
        by_cases hlen : 0 < h.length
        · intro lastItem hlast
          subst hpq
          simp only [bootstrapUpdate, hqid, if_true, eq_self_iff_true] at hlast ⊢
          simp only [hlen, if_true] at hlast ⊢
          simp [lastHistoryItem, hlast]
        · intro lastItem hlast
          subst hpq
          simp only [bootstrapUpdate, hqid, if_true, eq_self_iff_true] at hlast ⊢
          simp only [hlen, if_false] at hlast ⊢
          exact hall q hq lastItem hlast
    · subst hpq
      intro lastItem hlast
      simp only [bootstrapUpdate, hqid, if_false] at hlast ⊢
      exact hall q hq lastItem hlast
  · intro event today pols hall p hp
    rcases List.mem_map.mp hp with ⟨q, hq, hpq⟩
    by_cases hqid : q.id = event.politicianId
    · intro lastItem hlast
      subst hpq
      simp only [processEventPoliticians, ne_eq, hqid, not_true_eq_false,
        if_false] at hlast ⊢
      rw [getLast?_sliceLast_concat 50 (by omega)] at hlast
      simp only [Option.some_inj] at hlast
      rw [← hlast]
    · subst hpq
      intro lastItem hlast
      simp only [processEventPoliticians, ne_eq, hqid, not_false_eq_true,
        if_true] at hlast ⊢
      exact hall q hq lastItem hlast

/-- Witness for C1: a concrete bootstrap installing a one-point history
yields a coherent politician. -/
theorem claim_C1_witness :
    scoreHistoryCoherent
      { id := "p1", name := "N", role := "r", party := "pa", score := 105,
        trend := 0, color := "c", image := "i",
        history := [{ time := "2025-01-01", score := 105 }] } := by
  refine claim_C1_score_history_coherence.1 "p1"
    [{ time := "2025-01-01", score := 105 }] none
    [{ id := "p1", name := "N", role := "r", party := "pa", score := 100,
       trend := 0, color := "c", image := "i", history := [] }] _
    (by with_unfolding_all decide) ?_ rfl
  with_unfolding_all decide

/-! ## Claim C7: impact clamping in fetchEvent -/

/-- C7 counterexample: `GeminiProvider.fetchEvent` copies the raw impact
through unclamped, so a response with impact 10 yields an event whose
impact lies outside the bounded positive single-event range (0.1 to 3.0),
falsifying the claim for that backend. -/
theorem claim_C7_counterexample :
    (geminiEventOf none "now"
        { headline := some "h", sourceName := some "Daily Nation",
          sentiment := some .neutral, impact := some 10,
          publishedDate := some "2027-01-01",
          sourceUrl := some "https://nation.africa/a" }).map
      (fun e => e.impact) = some (some 10) ∧ ¬((10 : ℚ) ≤ 3) := by
  constructor
  · with_unfolding_all decide
  · norm_num

/-- C7 amended: only `FreeApiProvider.fetchEvent` clamps the impact into
the bounded positive single-event range 0.1 to 3.0; `GeminiProvider`
passes the raw impact through unchanged, and `OllamaProvider` only
substitutes 0.5 for a missing (or zero, which is falsy) impact, so neither
guarantees the range. -/
theorem claim_C7_impact_clamping :
    (∀ name nowLocale data, ∃ x,
      (freeApiEventOf name nowLocale data).impact = some x ∧
      1/10 ≤ x ∧ x ≤ 3) ∧
    (∀ grounding nowLocale data ev,
      geminiEventOf grounding nowLocale data = some ev →
      ev.impact = data.impact) ∧
    (∀ nowLocale data,
      (ollamaEventOf nowLocale data).impact = some (jsOrQ data.impact (1/2))) := by
  refine ⟨?_, ?_, fun nowLocale data => rfl⟩
  · intro name nowLocale data
    refine ⟨min 3 (max (1/10) (jsOrQ data.impact (1/2))), rfl, ?_, ?_⟩
    · exact le_min (by norm_num) (le_max_left _ _)
    · exact min_le_left _ _
  · intro grounding nowLocale data ev hev
    unfold geminiEventOf at hev
    rcases hu : (match jsOrUndef data.sourceUrl with
        | some u => some u
        | none => grounding) with _ | u
    · rw [hu] at hev
      simp at hev
    · rw [hu] at hev
      by_cases hlen : u.length < 5
      · simp [hlen] at hev
      · simp [hlen] at hev
        rw [← hev]

/-- Witness for C7: the Gemini pass-through at a concrete in-range
response. -/
theorem claim_C7_witness :
    ({ headline := some "h", sourceName := some "S",
       sentiment := some .positive, impact := some 2,
       timestamp := some "2027-01-01",
       url := some "https://x.example/a" } : FetchedEvent).impact =
      some 2 := by
  refine claim_C7_impact_clamping.2.1 none "now"
    { headline := some "h", sourceName := some "S",
      sentiment := some .positive, impact := some 2,
      publishedDate := some "2027-01-01",
      sourceUrl := some "https://x.example/a" } _ ?_
  with_unfolding_all decide

/-! ## Claim C3: retry wrapper -/
theorem withRetry_ok {α : Type} (op : Nat → FetchOutcome α)
    (retries baseDelay attempt : Nat) (v : α) (h : op attempt = .ok v) :
    withRetry op retries baseDelay attempt = (some v, 1, []) := by
  cases retries <;> simp [withRetry, h]

theorem withRetry_err_zero {α : Type} (op : Nat → FetchOutcome α)
    (baseDelay attempt : Nat) (e : JsError) (h : op attempt = .err e) :
    withRetry op 0 baseDelay attempt = (none, 1, []) := by
  simp [withRetry, h]

theorem withRetry_err_succ {α : Type} (op : Nat → FetchOutcome α)
    (r baseDelay attempt : Nat) (e : JsError) (h : op attempt = .err e) :
    withRetry op (r + 1) baseDelay attempt =
      if isRateLimit e || isServerOverload e then
        ((withRetry op r (baseDelay * 2) (attempt + 1)).1,
          (withRetry op r (baseDelay * 2) (attempt + 1)).2.1 + 1,
          baseDelay :: (withRetry op r (baseDelay * 2) (attempt + 1)).2.2)
      else (none, 1, []) := by
  simp [withRetry, h]

theorem withRetry_success_general {α : Type} (op : Nat → FetchOutcome α) (v : α) :
    ∀ (K retries baseDelay attempt : Nat), K ≤ retries →
      (∀ i, i < K → retryableB (op (attempt + i)) = true) →
      op (attempt + K) = .ok v →
      withRetry op retries baseDelay attempt =
        (some v, K + 1, (List.range K).map fun i => baseDelay * 2 ^ i) := by
  intro K
  induction K with
  | zero =>
    intro retries baseDelay attempt _ _ hsucc
    rw [Nat.add_zero] at hsucc
    simp [withRetry_ok op retries baseDelay attempt v hsucc]
  | succ K ih =>
    intro retries baseDelay attempt hK hfail hsucc
    have h0 : retryableB (op (attempt + 0)) = true := hfail 0 (Nat.succ_pos K)
    rw [Nat.add_zero] at h0
    rcases hop : op attempt with v0 | e
    · rw [hop] at h0
      simp [retryableB] at h0
    · rw [hop] at h0
      have hflag : (isRateLimit e || isServerOverload e) = true := h0
      rcases retries with _ | r
      · omega
      · have hrest := ih r (baseDelay * 2) (attempt + 1) (by omega)
          (fun i hi => by
            have := hfail (i + 1) (by omega)
            rwa [show attempt + (i + 1) = attempt + 1 + i by omega] at this)
          (by rwa [show attempt + 1 + K = attempt + (K + 1) by omega])
        rw [withRetry_err_succ op r baseDelay attempt e hop]
        simp only [hflag, if_true, hrest]
        refine Prod.ext rfl (Prod.ext rfl ?_)
        simp only [List.range_succ_eq_map, List.map_cons, List.map_map]
        refine congrArg₂ _ (by ring) ?_
        refine List.map_congr_left fun i _ => ?_
        simp [Function.comp, pow_succ]
        ring

/-- C3: operations wrapped by `withRetry` that fail with a rate-limit
(429 / quota-exhausted) or server-overload (503) classification exactly K
times with K within the retry budget and then succeed return the success
value after exactly K+1 invocations, with the K back-off delays doubling
from the base delay and hence strictly increasing (for a positive base
delay); any failure with any other classification ends the call after
exactly one invocation with result `null`. -/
theorem claim_C3_retry_wrapper :
    (∀ (α : Type) (op : Nat → FetchOutcome α) (v : α) (K retries baseDelay : Nat),
      K ≤ retries →
      (∀ i, i < K → retryableB (op i) = true) →
      op K = .ok v →
      withRetry op retries baseDelay 0 =
        (some v, K + 1, (List.range K).map fun i => baseDelay * 2 ^ i)) ∧
    (∀ (baseDelay K : Nat), 0 < baseDelay →
      List.Pairwise (· < ·) ((List.range K).map fun i => baseDelay * 2 ^ i)) ∧
    (∀ (α : Type) (op : Nat → FetchOutcome α) (retries baseDelay : Nat) (e : JsError),
      op 0 = .err e → (isRateLimit e || isServerOverload e) = false →
      withRetry op retries baseDelay 0 = (none, 1, [])) := by
  refine ⟨?_, ?_, ?_⟩
  · intro α op v K retries baseDelay hK hfail hsucc
    exact withRetry_success_general op v K retries baseDelay 0 hK
      (fun i hi => by simpa using hfail i hi) (by simpa using hsucc)
  · intro baseDelay K hpos
    have hbase : List.Pairwise (· < ·) (List.range K) := List.pairwise_lt_range K
    refine hbase.map _ fun i j hij => ?_
    exact (Nat.mul_lt_mul_left hpos).mpr (Nat.pow_lt_pow_right (by omega) hij)
  · intro α op retries baseDelay e hop hflag
    cases retries with
    | zero => exact withRetry_err_zero op baseDelay 0 e hop
    | succ r =>
      rw [withRetry_err_succ op r baseDelay 0 e hop, hflag]
      simp

/-- Witness for C3: an operation rejecting twice with a 429 status and then
resolving returns the value after 3 invocations with doubling delays; a
non-retryable rejection returns `null` after one invocation. -/
theorem claim_C3_witness :
    withRetry
        (fun i => if i < 2 then .err { status := .num 429 } else .ok (42 : Nat))
        3 2000 0 = (some 42, 3, [2000, 4000]) ∧
    List.Pairwise (· < ·) ((List.range 2).map fun i => 2000 * 2 ^ i) ∧
    withRetry
        (fun _ => (.err { status := .num 500, message := .str "auth" } :
          FetchOutcome Nat))
        3 2000 0 = (none, 1, []) := by
  refine ⟨?_, ?_, ?_⟩
  · have h := claim_C3_retry_wrapper.1 Nat
      (fun i => if i < 2 then .err { status := .num 429 } else .ok (42 : Nat))
      42 2 3 2000 (by omega) (by decide) (by decide)
    simpa using h
  · exact claim_C3_retry_wrapper.2.1 2000 2 (by omega)
  · exact claim_C3_retry_wrapper.2.2 Nat _ 3 2000
      { status := .num 500, message := .str "auth" } rfl (by decide)

/-! ## Claim C4: provider factory caching -/

theorem providerTypeString_inj :
    ∀ a b : ProviderType, a.asString = b.asString → a = b := by
  intro a b h
  cases a <;> cases b <;> first
    | rfl
    | exact absurd h (by decide)

theorem stringOfData {a b : String} (h : a.data = b.data) : a = b := by
  cases a
  cases b
  exact congrArg String.mk h

theorem configHash_ne_of_singleFieldChange (c c' : AIProviderConfig)
    (h : singleFieldChange c c') : configHash c ≠ configHash c' := by
  intro heq
  have hd := congrArg String.data heq
  simp only [configHash, String.data_append, List.append_assoc] at hd
  rcases h with ⟨h1, h2, h3, h4, h5, h6⟩ | ⟨h1, h2, h3, h4, h5, h6⟩ |
    ⟨h1, h2, h3, h4, h5, h6⟩ | ⟨h1, h2, h3, h4, h5, h6⟩ |
    ⟨h1, h2, h3, h4, h5, h6⟩ | ⟨h1, h2, h3, h4, h5, h6⟩
  · rw [h2, h3, h4, h5, h6] at hd
    exact h1 (providerTypeString_inj _ _
      (stringOfData (List.append_cancel_right hd)))
  · rw [h1, h3, h4, h5, h6] at hd
    replace hd := List.append_cancel_left hd
    replace hd := List.append_cancel_left hd
    exact h2 (stringOfData (List.append_cancel_right hd))
  · rw [h1, h2, h4, h5, h6] at hd
    replace hd := List.append_cancel_left hd
    replace hd := List.append_cancel_left hd
    replace hd := List.append_cancel_left hd
    replace hd := List.append_cancel_left hd
    exact h3 (stringOfData (List.append_cancel_right hd))
  · rw [h1, h2, h3, h5, h6] at hd
    replace hd := List.append_cancel_left hd
    replace hd := List.append_cancel_left hd
    replace hd := List.append_cancel_left hd
    replace hd := List.append_cancel_left hd
    replace hd := List.append_cancel_left hd
    replace hd := List.append_cancel_left hd
    exact h4 (stringOfData (List.append_cancel_right hd))
  · rw [h1, h2, h3, h4, h6] at hd
    replace hd := List.append_cancel_left hd
    replace hd := List.append_cancel_left hd
    replace hd := List.append_cancel_left hd
    replace hd := List.append_cancel_left hd
    replace hd := List.append_cancel_left hd
    replace hd := List.append_cancel_left hd
    replace hd := List.append_cancel_left hd
    replace hd := List.append_cancel_left hd
    exact h5 (stringOfData (List.append_cancel_right hd))
  · rw [h1, h2, h3, h4, h5] at hd
    replace hd := List.append_cancel_left hd
    replace hd := List.append_cancel_left hd
    replace hd := List.append_cancel_left hd
    replace hd := List.append_cancel_left hd
    replace hd := List.append_cancel_left hd
    replace hd := List.append_cancel_left hd
    replace hd := List.append_cancel_left hd
    replace hd := List.append_cancel_left hd
    replace hd := List.append_cancel_left hd
    replace hd := List.append_cancel_left hd
    exact h6 (stringOfData hd)

theorem getProvider_cache_hit (c : AIProviderConfig) (s : FactoryState)
    (p : ProviderInstance) (hc : s.cachedProvider = some p)
    (hh : s.cachedConfigHash = configHash c) :
    getProvider c s = (p, s) := by
  simp [getProvider, hc, hh]

theorem getProvider_cache_miss (c : AIProviderConfig) (s : FactoryState)
    (p : ProviderInstance) (hc : s.cachedProvider = some p)
    (hh : s.cachedConfigHash ≠ configHash c) :
    getProvider c s =
      (⟨s.nextId, buildProvider c⟩,
        ⟨some ⟨s.nextId, buildProvider c⟩, configHash c, s.nextId + 1⟩) := by
  simp [getProvider, hc, hh]

theorem getProvider_cache_none (c : AIProviderConfig) (s : FactoryState)
    (hc : s.cachedProvider = none) :
    getProvider c s =
      (⟨s.nextId, buildProvider c⟩,
        ⟨some ⟨s.nextId, buildProvider c⟩, configHash c, s.nextId + 1⟩) := by
  simp [getProvider, hc]

theorem getProvider_post (c : AIProviderConfig) (s : FactoryState) :
    (getProvider c s).2.cachedProvider = some (getProvider c s).1 ∧
    (getProvider c s).2.cachedConfigHash = configHash c ∧
    (FactoryWF s → (getProvider c s).1.id < (getProvider c s).2.nextId) := by
  rcases hc : s.cachedProvider with _ | p
  · rw [getProvider_cache_none c s hc]
    exact ⟨rfl, rfl, fun _ => Nat.lt_succ_self _⟩
  · by_cases hh : s.cachedConfigHash = configHash c
    · rw [getProvider_cache_hit c s p hc hh]
      exact ⟨hc, hh, fun hwf => hwf p hc⟩
    · rw [getProvider_cache_miss c s p hc hh]
      exact ⟨rfl, rfl, fun _ => Nat.lt_succ_self _⟩

/-- C4: two successive `getProvider` calls with byte-identical
configurations return the same provider instance (the second call is a
cache hit and leaves the factory state untouched), while changing any
single field of the configuration makes the second call construct a fresh
instance — allocated at the next id, hence a different instance — built
for the new configuration. -/
theorem claim_C4_provider_factory :
    (∀ c s, getProvider c ((getProvider c s).2) =
      ((getProvider c s).1, (getProvider c s).2)) ∧
    (∀ c c' s, FactoryWF s → singleFieldChange c c' →
      (getProvider c' (getProvider c s).2).1.id = ((getProvider c s).2).nextId ∧
      (getProvider c' (getProvider c s).2).1 ≠ (getProvider c s).1 ∧
      (getProvider c' (getProvider c s).2).1.impl = buildProvider c') := by
  constructor
  · intro c s
    have hpost := getProvider_post c s
    exact getProvider_cache_hit c _ _ hpost.1 hpost.2.1
  · intro c c' s hwf hchange
    have hpost := getProvider_post c s
    have hmiss : ((getProvider c s).2).cachedConfigHash ≠ configHash c' := by
      rw [hpost.2.1]
      exact configHash_ne_of_singleFieldChange c c' hchange
    rw [getProvider_cache_miss c' _ _ hpost.1 hmiss]
    refine ⟨rfl, ?_, rfl⟩
    intro habs
    have hid : (getProvider c s).1.id < ((getProvider c s).2).nextId :=
      hpost.2.2 hwf
    rw [← habs] at hid
    exact absurd hid (by simp)

/-- Witness for C4: concrete identical and single-field-changed
configurations starting from the initial factory state. -/
theorem claim_C4_witness :
    (getProvider (getDefaultAIProviderConfig "k")
        ((getProvider (getDefaultAIProviderConfig "k") initialFactoryState).2) =
      ((getProvider (getDefaultAIProviderConfig "k") initialFactoryState).1,
        (getProvider (getDefaultAIProviderConfig "k") initialFactoryState).2)) ∧
    (getProvider { getDefaultAIProviderConfig "k" with geminiApiKey := "k2" }
        ((getProvider (getDefaultAIProviderConfig "k") initialFactoryState).2)).1 ≠
      (getProvider (getDefaultAIProviderConfig "k") initialFactoryState).1 := by
  constructor
  · exact claim_C4_provider_factory.1 (getDefaultAIProviderConfig "k")
      initialFactoryState
  · exact (claim_C4_provider_factory.2 (getDefaultAIProviderConfig "k")
      { getDefaultAIProviderConfig "k" with geminiApiKey := "k2" }
      initialFactoryState (fun p h => Option.noConfusion h)
      (Or.inr (Or.inr (Or.inr (Or.inr (Or.inr
        ⟨rfl, rfl, rfl, rfl, rfl, by decide⟩)))))).2.1

/-! ## Claim C2: history reconstruction -/

theorem insertSorted_perm (le : α → α → Bool) (a : α) :
    ∀ l, (insertSorted le a l).Perm (a :: l) := by
  intro l
  induction l with
  | nil => exact List.Perm.refl _
  | cons b bs ih =>
    by_cases hab : le a b
    · simp [insertSorted, hab]
    · simp only [insertSorted, hab, if_false]
      exact (ih.cons b).trans (List.Perm.swap a b bs)

theorem sortByLe_perm (le : α → α → Bool) :
    ∀ l, (sortByLe le l).Perm l := by
  intro l
  induction l with
  | nil => exact List.Perm.refl _
  | cons a as ih =>
    exact (insertSorted_perm le a (sortByLe le as)).trans (ih.cons a)

theorem pairwise_insertSorted (le : α → α → Bool)
    (htrans : ∀ a b c, le a b = true → le b c = true → le a c = true)
    (htotal : ∀ a b, le a b = true ∨ le b a = true) (a : α) :
    ∀ l, List.Pairwise (fun x y => le x y = true) l →
      List.Pairwise (fun x y => le x y = true) (insertSorted le a l) := by
  intro l
  induction l with
  | nil => intro _; simp [insertSorted]
  | cons b bs ih =>
    intro hsort
    rcases List.pairwise_cons.mp hsort with ⟨hb, hbs⟩
    by_cases hab : le a b
    · simp only [insertSorted, hab, if_true]
      refine List.pairwise_cons.mpr ⟨?_, hsort⟩
      intro c hc
      rcases List.mem_cons.mp hc with hc | hc
      · rw [hc]; exact hab
      · exact htrans a b c hab (hb c hc)
    · simp only [insertSorted, hab, if_false]
      refine List.pairwise_cons.mpr ⟨?_, ih hbs⟩
      intro c hc
      have hc2 : c ∈ a :: bs :=
        ((insertSorted_perm le a bs).mem_iff).mp hc
      rcases List.mem_cons.mp hc2 with hc2 | hc2
      · rw [hc2]
        rcases htotal a b with h | h
        · exact absurd h hab
        · exact h
      · exact hb c hc2

theorem pairwise_sortByLe (le : α → α → Bool)
    (htrans : ∀ a b c, le a b = true → le b c = true → le a c = true)
    (htotal : ∀ a b, le a b = true ∨ le b a = true) :
    ∀ l, List.Pairwise (fun x y => le x y = true) (sortByLe le l) := by
  intro l
  induction l with
  | nil => simp [sortByLe]
  | cons a as ih => exact pairwise_insertSorted le htrans htotal a _ ih

theorem foldHistory_length (sentOf : Option Sentiment → Option Sentiment) :
    ∀ (base : ℚ) (evs : List RawHistEvent),
      (foldHistory sentOf base evs).length = evs.length := by
  intro base evs
  induction evs generalizing base with
  | nil => rfl
  | cons e rest ih => simp [foldHistory, ih]

theorem foldHistory_scores (sentOf : Option Sentiment → Option Sentiment) :
    ∀ (base : ℚ) (evs : List RawHistEvent),
      (foldHistory sentOf base evs).map (fun p => p.score) =
        (cumScoresSpec base (evs.map (fun e => e.impact))).map round2 := by
  intro base evs
  induction evs generalizing base with
  | nil => rfl
  | cons e rest ih => simp [foldHistory, cumScoresSpec, ih]

theorem foldHistory_mem (sentOf : Option Sentiment → Option Sentiment) :
    ∀ (base : ℚ) (evs : List RawHistEvent) (p : HistoryItem),
      p ∈ foldHistory sentOf base evs →
      ∃ e ∈ evs, p.sourceUrl = e.sourceUrl ∧ p.time = e.dateStr ∧
        p.reason = some e.headline ∧ p.sentiment = sentOf e.sentiment := by
  intro base evs
  induction evs generalizing base with
  | nil => intro p hp; simp [foldHistory] at hp
  | cons e rest ih =>
    intro p hp
    rcases List.mem_cons.mp hp with hp | hp
    · exact ⟨e, List.mem_cons_self e rest, by rw [hp], by rw [hp], by rw [hp],
        by rw [hp]⟩
    · rcases ih _ p hp with ⟨e', he', hurl, htime, hreason, hsent⟩
      exact ⟨e', List.mem_cons_of_mem e he', hurl, htime, hreason, hsent⟩

/-- C2 counterexample: `OllamaProvider.fetchHistory` (a backend cited by
the claim) does not drop events lacking a provenance URL — a single
in-window event with no `sourceUrl` is folded into a history point — and on
the claim's 10-event scenario (3 events without a URL, 2 outside the
window) it returns 8 points, not 5. -/
theorem claim_C2_counterexample :
    (ollamaFetchHistoryCore 0
        [{ dateStr := "d3", dateVal := some 3, headline := "h3",
           sentiment := some .neutral, impact := 2, sourceUrl := none }]).map
      (fun p => (p.sourceUrl, p.score)) = [(none, 102)] ∧
    (ollamaFetchHistoryCore 0
        [{ dateStr := "d1", dateVal := some 1, headline := "h1",
           sentiment := some .positive, impact := 2,
           sourceUrl := some "https://a/1" },
         { dateStr := "d2", dateVal := some 2, headline := "h2",
           sentiment := some .negative, impact := -1,
           sourceUrl := some "https://a/2" },
         { dateStr := "d3", dateVal := some 3, headline := "h3",
           sentiment := some .neutral, impact := 3, sourceUrl := none },
         { dateStr := "d4", dateVal := some 4, headline := "h4",
           sentiment := some .positive, impact := 2,
           sourceUrl := some "https://a/4" },
         { dateStr := "d0", dateVal := some (-5), headline := "h5",
           sentiment := some .positive, impact := 9,
           sourceUrl := some "https://a/5" },
         { dateStr := "d5", dateVal := some 5, headline := "h6",
           sentiment := some .negative, impact := -1,
           sourceUrl := some "https://a/6" },
         { dateStr := "d6", dateVal := some 6, headline := "h7",
           sentiment := some .neutral, impact := 4, sourceUrl := none },
         { dateStr := "d7", dateVal := some 7, headline := "h8",
           sentiment := some .positive, impact := 1,
           sourceUrl := some "https://a/8" },
         { dateStr := "dx", dateVal := some (-2), headline := "h9",
           sentiment := some .negative, impact := -3,
           sourceUrl := some "https://a/9" },
         { dateStr := "d8", dateVal := some 8, headline := "h10",
           sentiment := some .neutral, impact := 5,
           sourceUrl := none }]).length = 8 := by
  constructor
  · with_unfolding_all decide
  · with_unfolding_all decide

/-- C2 amended: in every backend's `fetchHistory` the events whose date
does not parse or falls before `now - N days` are dropped, the survivors
are sorted ascending by date and folded from the fixed baseline 100, each
emitted point carrying the cumulative score rounded to two decimals
(`toFixed(2)`), the reason text, the provenance URL and the (per-provider)
sentiment tag; but ONLY the Gemini backend additionally drops events
lacking a provenance URL that starts with `http` — Ollama (and the
free-API provider) keep URL-less events, so the 10-event scenario yields 5
points for Gemini only. -/
theorem claim_C2_history_reconstruction :
    (∀ cutoff evs p, p ∈ geminiFetchHistoryCore cutoff evs →
      ∃ e ∈ evs, geminiHistValid cutoff e = true ∧ p.sourceUrl = e.sourceUrl ∧
        p.time = e.dateStr ∧ p.reason = some e.headline ∧
        p.sentiment = e.sentiment) ∧
    (∀ cutoff evs p, p ∈ ollamaFetchHistoryCore cutoff evs →
      ∃ e ∈ evs, histDateValid cutoff e = true ∧ p.sourceUrl = e.sourceUrl ∧
        p.time = e.dateStr ∧ p.reason = some e.headline ∧
        p.sentiment = some ((e.sentiment).getD .neutral)) ∧
    (∀ cutoff evs,
      (geminiFetchHistoryCore cutoff evs).map (fun p => p.score) =
        (cumScoresSpec 100
          ((sortByDate (evs.filter (geminiHistValid cutoff))).map
            (fun e => e.impact))).map round2 ∧
      (ollamaFetchHistoryCore cutoff evs).map (fun p => p.score) =
        (cumScoresSpec 100
          ((sortByDate (evs.filter (histDateValid cutoff))).map
            (fun e => e.impact))).map round2) ∧
    (∀ cutoff evs,
      (geminiFetchHistoryCore cutoff evs).length =
        (evs.filter (geminiHistValid cutoff)).length ∧
      (ollamaFetchHistoryCore cutoff evs).length =
        (evs.filter (histDateValid cutoff)).length) ∧
    (∀ evs, List.Pairwise (fun a b => histDateKey a ≤ histDateKey b)
      (sortByDate evs)) ∧
    (geminiFetchHistoryCore 0
        [{ dateStr := "d1", dateVal := some 1, headline := "h1",
           sentiment := some .positive, impact := 2,
           sourceUrl := some "https://a/1" },
         { dateStr := "d2", dateVal := some 2, headline := "h2",
           sentiment := some .negative, impact := -1,
           sourceUrl := some "https://a/2" },
         { dateStr := "d3", dateVal := some 3, headline := "h3",
           sentiment := some .neutral, impact := 3, sourceUrl := none },
         { dateStr := "d4", dateVal := some 4, headline := "h4",
           sentiment := some .positive, impact := 2,
           sourceUrl := some "https://a/4" },
         { dateStr := "d0", dateVal := some (-5), headline := "h5",
           sentiment := some .positive, impact := 9,
           sourceUrl := some "https://a/5" },
         { dateStr := "d5", dateVal := some 5, headline := "h6",
           sentiment := some .negative, impact := -1,
           sourceUrl := some "https://a/6" },
         { dateStr := "d6", dateVal := some 6, headline := "h7",
           sentiment := some .neutral, impact := 4, sourceUrl := none },
         { dateStr := "d7", dateVal := some 7, headline := "h8",
           sentiment := some .positive, impact := 1,
           sourceUrl := some "https://a/8" },
         { dateStr := "dx", dateVal := some (-2), headline := "h9",
           sentiment := some .negative, impact := -3,
           sourceUrl := some "https://a/9" },
         { dateStr := "d8", dateVal := some 8, headline := "h10",
           sentiment := some .neutral, impact := 5,
           sourceUrl := none }]).map (fun p => p.score) =
      [102, 101, 103, 102, 103] := by
  refine ⟨?_, ?_, ?_, ?_, ?_, ?_⟩
  · intro cutoff evs p hp
    rcases foldHistory_mem id 100 _ p hp with ⟨e, he, hurl, htime, hreason, hsent⟩
    have he2 : e ∈ evs.filter (geminiHistValid cutoff) :=
      ((sortByLe_perm _ _).mem_iff).mp he
    rcases List.mem_filter.mp he2 with ⟨hee, hval⟩
    exact ⟨e, hee, hval, hurl, htime, hreason, hsent⟩
  · intro cutoff evs p hp
    rcases foldHistory_mem (fun s => some (s.getD .neutral)) 100 _ p hp with
      ⟨e, he, hurl, htime, hreason, hsent⟩
    have he2 : e ∈ evs.filter (histDateValid cutoff) :=
      ((sortByLe_perm _ _).mem_iff).mp he
    rcases List.mem_filter.mp he2 with ⟨hee, hval⟩
    exact ⟨e, hee, hval, hurl, htime, hreason, hsent⟩
  · intro cutoff evs
    exact ⟨foldHistory_scores id 100 _,
      foldHistory_scores (fun s => some (s.getD .neutral)) 100 _⟩
  · intro cutoff evs
    constructor
    · rw [geminiFetchHistoryCore, foldHistory_length]
      exact ((sortByLe_perm _ _).length_eq)
    · rw [ollamaFetchHistoryCore, foldHistory_length]
      exact ((sortByLe_perm _ _).length_eq)
  · intro evs
    have h := pairwise_sortByLe
      (fun a b => decide (histDateKey a ≤ histDateKey b))
      (fun a b c hab hbc => by
        simp only [decide_eq_true_eq] at hab hbc ⊢
        omega)
      (fun a b => by
        simp only [decide_eq_true_eq]
        omega) evs
    exact h.imp fun hxy => by simpa using hxy
  · with_unfolding_all decide

/-- Witness for C2 at a single concrete in-window event with a valid URL. -/
theorem claim_C2_witness :
    ∃ e ∈ [({ dateStr := "d1", dateVal := some 1, headline := "h1",
              sentiment := some .positive, impact := 2,
              sourceUrl := some "https://a/1" } : RawHistEvent)],
      geminiHistValid 0 e = true ∧
      ({ time := "d1", score := 102, reason := some "h1",
         sourceUrl := some "https://a/1",
         sentiment := some .positive } : HistoryItem).sourceUrl = e.sourceUrl ∧
      ({ time := "d1", score := 102, reason := some "h1",
         sourceUrl := some "https://a/1",
         sentiment := some .positive } : HistoryItem).time = e.dateStr ∧
      ({ time := "d1", score := 102, reason := some "h1",
         sourceUrl := some "https://a/1",
         sentiment := some .positive } : HistoryItem).reason = some e.headline ∧
      ({ time := "d1", score := 102, reason := some "h1",
         sourceUrl := some "https://a/1",
         sentiment := some .positive } : HistoryItem).sentiment = e.sentiment := by
  refine claim_C2_history_reconstruction.1 0
    [{ dateStr := "d1", dateVal := some 1, headline := "h1",
       sentiment := some .positive, impact := 2,
       sourceUrl := some "https://a/1" }] _ ?_
  with_unfolding_all decide

/-! ## Claim C9: metrics degenerate defaults and momentum -/

/-- C9 counterexample: on 14 valid points whose 7-vs-7 mean difference is
1/7, `calculateMomentum` returns the `toFixed(2)`-rounded value 7/50, not
the exact mean difference, so "momentum equals the mean of the most recent
7 points minus the mean of the preceding 7" is false at this input. -/
theorem claim_C9_counterexample :
    calculateMomentum
        [{ time := "d", score := 100 }, { time := "d", score := 100 },
         { time := "d", score := 100 }, { time := "d", score := 100 },
         { time := "d", score := 100 }, { time := "d", score := 100 },
         { time := "d", score := 100 }, { time := "d", score := 100 },
         { time := "d", score := 100 }, { time := "d", score := 100 },
         { time := "d", score := 100 }, { time := "d", score := 100 },
         { time := "d", score := 100 }, { time := "d", score := 101 }] =
      7/50 ∧
    (701 : ℚ)/7 - (700 : ℚ)/7 = 1/7 ∧ (7 : ℚ)/50 ≠ 1/7 := by
  refine ⟨by with_unfolding_all decide, by norm_num, by norm_num⟩

/-- C9 amended: every metrics function returns its stated degenerate
default on an empty series; momentum is 0 for every series with fewer than
14 valid (dated) points and otherwise equals the mean of the most recent 7
valid points minus the mean of the preceding 7, rounded to two decimal
places (`toFixed(2)`); the prediction for a series with fewer than 7
points is the degenerate default with score 100, confidence 0 and trend
stable. -/
theorem claim_C9_metrics_defaults :
    (∀ history, (validHistoryOf history).length < 14 →
      calculateMomentum history = 0) ∧
    (∀ history, 14 ≤ (validHistoryOf history).length →
      calculateMomentum history =
        round2
          (((sliceLast 7 (validHistoryOf history)).map
              (fun p => p.score)).sum / 7 -
            ((((validHistoryOf history).drop
                ((validHistoryOf history).length - 14)).take 7).map
              (fun p => p.score)).sum / 7)) ∧
    (∀ sqrtQ history, history.length < 7 →
      calculatePrediction sqrtQ history =
        { nextWeek := 100, confidence := 0, trend := "stable" }) ∧
    (∀ sqrtQ : ℚ → ℚ,
      calculateVolatility sqrtQ [] = 0 ∧
      calculateMomentum [] = 0 ∧
      calculateSentimentRatio [] = 0 ∧
      calculateTrendStrength sqrtQ [] = 0 ∧
      calculateConsistencyScore sqrtQ [] = 0 ∧
      calculateSMA [] 7 = 100 ∧
      calculateEMA [] 12 = 100 ∧
      calculateSentimentBreakdown [] = { positive := 0, negative := 0, neutral := 0 } ∧
      calculatePrediction sqrtQ [] =
        { nextWeek := 100, confidence := 0, trend := "stable" }) := by
  refine ⟨?_, ?_, ?_, ?_⟩
  · intro history hv
    by_cases h7 : history.length < 7
    · simp [calculateMomentum, h7]
    · simp [calculateMomentum, h7, hv]
  · intro history hv
    have hfle : (validHistoryOf history).length ≤ history.length :=
      List.length_filter_le _ _
    have h7 : ¬history.length < 7 := by omega
    have h14 : ¬(validHistoryOf history).length < 14 := by omega
    have hr : (sliceLast 7 (validHistoryOf history)).length = 7 := by
      simp only [sliceLast, List.length_drop]
      omega
    have hp : (((validHistoryOf history).drop
        ((validHistoryOf history).length - 14)).take 7).length = 7 := by
      simp only [List.length_take, List.length_drop]
      omega
    simp only [calculateMomentum, h7, if_false, h14]
    rw [hr, hp]
    norm_num
  · intro sqrtQ history hlen
    simp [calculatePrediction, hlen]
  · intro sqrtQ
    refine ⟨rfl, rfl, rfl, rfl, rfl, rfl, rfl, ?_, rfl⟩
    with_unfolding_all decide

/-- Witness for C9 at concrete inputs: a 1-valid-point series has momentum
0, the 14-point series of the counterexample evaluates through the amended
formula to 7/50, and the prediction on a 3-point series is the degenerate
default. -/
theorem claim_C9_witness :
    calculateMomentum [{ time := "d", score := 100 }] = 0 ∧
    calculateMomentum
        [{ time := "d", score := 100 }, { time := "d", score := 100 },
         { time := "d", score := 100 }, { time := "d", score := 100 },
         { time := "d", score := 100 }, { time := "d", score := 100 },
         { time := "d", score := 100 }, { time := "d", score := 100 },
         { time := "d", score := 100 }, { time := "d", score := 100 },
         { time := "d", score := 100 }, { time := "d", score := 100 },
         { time := "d", score := 100 }, { time := "d", score := 101 }] =
      7/50 ∧
    calculatePrediction (fun x => x)
        [{ time := "d", score := 100 }, { time := "d", score := 101 },
         { time := "d", score := 102 }] =
      { nextWeek := 100, confidence := 0, trend := "stable" } := by
  refine ⟨?_, ?_, ?_⟩
  · exact claim_C9_metrics_defaults.1 [{ time := "d", score := 100 }]
      (by with_unfolding_all decide)
  · exact (claim_C9_metrics_defaults.2.1 _
      (by with_unfolding_all decide)).trans (by with_unfolding_all decide)
  · exact claim_C9_metrics_defaults.2.2.1 (fun x => x) _
      (by with_unfolding_all decide)

end Polimetrix
